import Mathlib

/-!
Shallow embedding of the OAuth2 token manager in
`custom_components/goto_sms/oauth.py` (`GoToOAuth2Manager`).

Modelling conventions:
* Time is `Int`, in seconds; `datetime.now()` readings become an explicit
  `now` parameter, with one reading per (composite) call.
* `self._tokens` is a Python dict with at most the three keys
  `access_token`, `refresh_token`, `token_expires_at`; it is modelled as
  `TokenDict` with one `Option` field per key.  The stored `token_expires_at`
  value is an ISO-8601 string that either parses to a timestamp or not
  (empty / malformed, both rejected by `_validate_tokens`), so it is modelled
  as `Option Int` inside the outer key-presence `Option`.  `extra_keys`
  records whether the dict holds any further keys, which only matters for the
  Python truthiness test `if not self._tokens` / `if not tokens`.
* The config entry is modelled by the `tokens` record it stores
  (`config_entry.data.get("tokens", {})`); `none` means no config entry is
  bound.  `save_tokens` schedules an asynchronous update of that record via
  `hass.async_create_task`; the schedule is modelled by appending the saved
  dict to `scheduledSaves` (the write itself is fire-and-forget).
* The token endpoint's behaviour for one HTTP POST is an `HttpOutcome`:
  either the POST raises (network error, timeout), or it yields a status
  code together with the JSON body (`none` when `response.json()` would
  raise).  JSON bodies are `RespData` records of the three fields the code
  reads, each optional (a missing field makes the `token_data[...]` lookup
  raise `KeyError`).
* Python `try/except`-with-fallback is `pyTry` over the `Except`-monad
  bodies (`...Body` definitions); exceptions are explicit `PyExn` values.
-/

/-- One Python exception, as far as the manager distinguishes them. -/
inductive PyExn where
  | httpError : PyExn
  | jsonError : PyExn
  | keyError : PyExn
deriving DecidableEq, Repr

/-- Computations that may raise a Python exception. -/
abbrev PyM (α : Type) := Except PyExn α

/-- Python `try: body except: return fallback`. -/
def pyTry {α : Type} (body : PyM α) (fallback : α) : α :=
  match body with
  | Except.ok v => v
  | Except.error _ => fallback

/-- The same `try/except` viewed inside `PyM`: it never lets an exception out. -/
def tryCatchE {α : Type} (body : PyM α) (fallback : α) : PyM α :=
  match body with
  | Except.ok v => Except.ok v
  | Except.error _ => Except.ok fallback

/-- Python `token_data[k]` on an optional JSON field: raises `KeyError` when absent. -/
def reqField {α : Type} (v : Option α) : PyM α :=
  match v with
  | some x => Except.ok x
  | none => Except.error PyExn.keyError

/-- The `self._tokens` dict.  `token_expires_at = some none` is a present but
empty or unparseable expiry string; `some (some t)` parses to timestamp `t`. -/
structure TokenDict where
  access_token : Option String
  refresh_token : Option String
  token_expires_at : Option (Option Int)
  extra_keys : Bool
deriving DecidableEq, Repr

/-- The empty dict `{}` (initial `self._tokens`). -/
def TokenDict.empty : TokenDict := ⟨none, none, none, false⟩

/-- Python truthiness of the dict: `not d` is true exactly when `d` has no keys. -/
def TokenDict.isEmpty (d : TokenDict) : Bool :=
  d.access_token.isNone && d.refresh_token.isNone &&
    d.token_expires_at.isNone && !d.extra_keys

/-- A parsed JSON token response, restricted to the fields the code reads. -/
structure RespData where
  access_token : Option String
  refresh_token : Option String
  expires_in : Option Int
deriving DecidableEq, Repr

/-- Outcome of one POST to the token endpoint: the request raises, or returns
status `code` with JSON body `body` (`none` = `response.json()` raises). -/
inductive HttpOutcome where
  | exn : HttpOutcome
  | resp : Nat → Option RespData → HttpOutcome
deriving DecidableEq, Repr

/-- The mutable state of a `GoToOAuth2Manager`:
`config` is the config entry's persisted `tokens` record (`none` = no config
entry bound), `tokens` is the in-memory `self._tokens`, and `scheduledSaves`
records the persistence updates scheduled by `save_tokens`. -/
structure ManagerState where
  config : Option TokenDict
  tokens : TokenDict
  scheduledSaves : List TokenDict
deriving DecidableEq, Repr

/-- `_validate_tokens` (oauth.py lines 117-151): all three keys must be
present, the expiry string must be truthy and parse, and the token must
expire strictly more than 5 minutes (300 s) from `now`
(`time_until_expiry <= timedelta(minutes=5)` fails validation). -/
def validateTokens (d : TokenDict) (now : Int) : Bool :=
  if d.access_token.isSome && d.refresh_token.isSome && d.token_expires_at.isSome then
    match d.token_expires_at with
    | some (some t) => if t - now ≤ 300 then false else true
    | some none => false
    | none => false
  else false

/-- `save_tokens` (oauth.py lines 87-106): fails when no config entry is
bound; otherwise schedules an asynchronous config-entry update carrying the
current in-memory dict and reports success (fire-and-forget). -/
def saveTokens (s : ManagerState) : Bool × ManagerState :=
  match s.config with
  | none => (false, s)
  | some _ => (true, { s with scheduledSaves := s.scheduledSaves ++ [s.tokens] })

/-- Body of the `try` block of `load_tokens` (oauth.py lines 57-85): fails
when no config entry or no stored tokens; otherwise copies the stored record
into memory (before validating!) and returns the validation verdict. -/
def loadTokensBody (s : ManagerState) (now : Int) : PyM (Bool × ManagerState) :=
  match s.config with
  | none => Except.ok (false, s)
  | some ct =>
    if ct.isEmpty then Except.ok (false, s)
    else
      let s1 := { s with tokens := ct }
      if validateTokens ct now then Except.ok (true, s1) else Except.ok (false, s1)

/-- `load_tokens` with its `except`-clause fallback. -/
def loadTokens (s : ManagerState) (now : Int) : Bool × ManagerState :=
  pyTry (loadTokensBody s now) (false, s)

/-- Body of the `try` block of `refresh_tokens` (oauth.py lines 239-288):
fail fast when no refresh token is in memory; POST to the token endpoint;
non-200 fails; on 200, read `access_token` and `expires_in` (KeyError when
absent, so the dict assignment never happens), keep the old refresh token
when the response omits one, replace `self._tokens` wholesale with
`expires_at = now + expires_in`, and return `save_tokens()`. -/
def refreshTokensBody (s : ManagerState) (env : HttpOutcome) (now : Int) :
    PyM (Bool × ManagerState) :=
  match s.tokens.refresh_token with
  | none => Except.ok (false, s)
  | some oldRt =>
    match env with
    | HttpOutcome.exn => Except.error PyExn.httpError
    | HttpOutcome.resp code body =>
      if code ≠ 200 then Except.ok (false, s)
      else
        match body with
        | none => Except.error PyExn.jsonError
        | some rd => do
          let newAccess ← reqField rd.access_token
          let newRefresh := rd.refresh_token.getD oldRt
          let ei ← reqField rd.expires_in
          let nt : TokenDict := ⟨some newAccess, some newRefresh, some (some (now + ei)), false⟩
          Except.ok (saveTokens { s with tokens := nt })

/-- `refresh_tokens` with its `except`-clause fallback. -/
def refreshTokens (s : ManagerState) (env : HttpOutcome) (now : Int) :
    Bool × ManagerState :=
  pyTry (refreshTokensBody s env now) (false, s)

/-- Body of the `try` block of `fetch_token` (oauth.py lines 175-237).
The urllib query parsing is abstracted to its result: `code` is the extracted
`code` query parameter (`none` when the parameter is absent; the empty string
is falsy and also rejected).  On HTTP 200 all three JSON fields are required
(`token_data["refresh_token"]`, unlike refresh), `self._tokens` is replaced
wholesale with `expires_at = now + expires_in`, and the new set is persisted
only when a config entry is bound; without one the exchange still succeeds. -/
def fetchTokenBody (s : ManagerState) (code : Option String) (env : HttpOutcome)
    (now : Int) : PyM (Bool × ManagerState) :=
  match code with
  | none => Except.ok (false, s)
  | some c =>
    if c = "" then Except.ok (false, s)
    else
      match env with
      | HttpOutcome.exn => Except.error PyExn.httpError
      | HttpOutcome.resp sc body =>
        if sc ≠ 200 then Except.ok (false, s)
        else
          match body with
          | none => Except.error PyExn.jsonError
          | some rd => do
            let newAccess ← reqField rd.access_token
            let newRefresh ← reqField rd.refresh_token
            let ei ← reqField rd.expires_in
            let nt : TokenDict := ⟨some newAccess, some newRefresh, some (some (now + ei)), false⟩
            let s1 := { s with tokens := nt }
            match s1.config with
            | some _ => Except.ok (saveTokens s1)
            | none => Except.ok (true, s1)

/-- `fetch_token` with its `except`-clause fallback. -/
def fetchToken (s : ManagerState) (code : Option String) (env : HttpOutcome)
    (now : Int) : Bool × ManagerState :=
  pyTry (fetchTokenBody s code env now) (false, s)

/-- `get_valid_token` (oauth.py lines 290-308): load when memory is empty
(returning `None` when the load reports failure — including the case where
expired tokens were loaded), then validate, refresh when invalid, and return
the in-memory `access_token`.  It has no `try` of its own. -/
def getValidToken (s : ManagerState) (env : HttpOutcome) (now : Int) :
    Option String × ManagerState :=
  let ld :=
    if TokenDict.isEmpty s.tokens then
      let r := loadTokens s now
      (r.2, !r.1)
    else (s, false)
  if ld.2 then (none, ld.1)
  else if validateTokens ld.1.tokens now then (ld.1.tokens.access_token, ld.1)
  else
    let rf := refreshTokens ld.1 env now
    if rf.1 then (rf.2.tokens.access_token, rf.2) else (none, rf.2)

/-- `get_headers` (oauth.py lines 310-321): wraps `get_valid_token`; a falsy
token (`None` or the empty string) yields `{}`, otherwise the Bearer pair. -/
def getHeaders (s : ManagerState) (env : HttpOutcome) (now : Int) :
    List (String × String) × ManagerState :=
  let r := getValidToken s env now
  match r.1 with
  | none => ([], r.2)
  | some tok =>
    if tok = "" then ([], r.2)
    else ([("Authorization", "Bearer " ++ tok), ("Content-Type", "application/json")], r.2)

/-- `get_valid_token` viewed inside `PyM`, with every raising primitive
explicit and the inner operations wrapped in their own `try/except`
(`tryCatchE`): the façade itself catches nothing. -/
def getValidTokenE (s : ManagerState) (env : HttpOutcome) (now : Int) :
    PyM (Option String × ManagerState) := do
  let ld ←
    if TokenDict.isEmpty s.tokens then do
      let r ← tryCatchE (loadTokensBody s now) (false, s)
      pure (r.2, !r.1)
    else pure (s, false)
  if ld.2 then pure (none, ld.1)
  else if validateTokens ld.1.tokens now then pure (ld.1.tokens.access_token, ld.1)
  else do
    let rf ← tryCatchE (refreshTokensBody ld.1 env now) (false, ld.1)
    if rf.1 then pure (rf.2.tokens.access_token, rf.2) else pure (none, rf.2)

/-- `get_headers` viewed inside `PyM`; it catches nothing of its own. -/
def getHeadersE (s : ManagerState) (env : HttpOutcome) (now : Int) :
    PyM (List (String × String) × ManagerState) := do
  let r ← getValidTokenE s env now
  match r.1 with
  | none => pure ([], r.2)
  | some tok =>
    if tok = "" then pure ([], r.2)
    else pure ([("Authorization", "Bearer " ++ tok), ("Content-Type", "application/json")], r.2)

/-! ## Theorems -/

/-- A `try/except` with a total fallback never lets an exception out. -/
theorem tryCatchE_eq_ok {α : Type} (body : PyM α) (fallback : α) :
    tryCatchE body fallback = Except.ok (pyTry body fallback) := by
  cases body <;> rfl

/-- Claim C2: `_validate_tokens` succeeds if and only if all three fields are
present and the parsed `expires_at` lies strictly more than 5 minutes (300 s)
after the check time; every set with `expires_at ≤ now + 300` — including
already-expired ones, and those whose expiry string is empty or unparseable —
is judged invalid. -/
theorem claim_C2_validation (d : TokenDict) (now : Int) :
    validateTokens d now = true ↔
      (d.access_token.isSome ∧ d.refresh_token.isSome ∧
        ∃ t, d.token_expires_at = some (some t) ∧ now + 300 < t) := by
  rcases d with ⟨a, r, e, x⟩
  unfold validateTokens
  cases a <;> cases r <;> simp
  rcases e with _ | (_ | t)
  · simp
  · simp
  · simp
    omega

/-- An `if` whose branches both succeed is itself a success. -/
theorem exceptOk_ite {α : Type} (c : Prop) [Decidable c] (a b : α) :
    (if c then Except.ok a else Except.ok b) = (Except.ok (if c then a else b) : PyM α) := by
  split <;> rfl

/-- Claim C3: the façade never raises past itself.  With every raising
primitive explicit in `PyM` and the inner operations wrapped in their own
`try/except`, `get_valid_token` and `get_headers` always produce an `ok`
value — the absent-token `none` / empty-mapping results of the pure façade —
for every state, endpoint behaviour (including raising POSTs and malformed
JSON) and clock reading. -/
theorem claim_C3_facade_never_raises (s : ManagerState) (env : HttpOutcome) (now : Int) :
    getValidTokenE s env now = Except.ok (getValidToken s env now) ∧
    getHeadersE s env now = Except.ok (getHeaders s env now) := by
  have h1 : getValidTokenE s env now = Except.ok (getValidToken s env now) := by
    unfold getValidTokenE getValidToken
    simp [tryCatchE_eq_ok, loadTokens, refreshTokens, bind, Except.bind, pure, Except.pure,
      exceptOk_ite]
    by_cases hemp : s.tokens.isEmpty = true <;> simp [hemp]
  refine ⟨h1, ?_⟩
  unfold getHeadersE getHeaders
  rw [h1]
  simp [bind, Except.bind]
  rcases (getValidToken s env now).1 with _ | tok
  · rfl
  · by_cases htok : tok = "" <;> simp [htok, pure, Except.pure]

/-- Claim C4: on a successful refresh exchange (HTTP 200 with the required
fields), the resulting in-memory set's refresh token is the response's
`refresh_token` when the response carries one, and the prior refresh token
unchanged when the response omits it. -/
theorem claim_C4_refresh_rotation (s : ManagerState) (rd : RespData)
    (oldRt newAccess : String) (ei now : Int)
    (hrt : s.tokens.refresh_token = some oldRt)
    (ha : rd.access_token = some newAccess)
    (he : rd.expires_in = some ei) :
    (∀ newRt, rd.refresh_token = some newRt →
      (refreshTokens s (HttpOutcome.resp 200 (some rd)) now).2.tokens.refresh_token
        = some newRt) ∧
    (rd.refresh_token = none →
      (refreshTokens s (HttpOutcome.resp 200 (some rd)) now).2.tokens.refresh_token
        = some oldRt) := by
  have key : (refreshTokens s (HttpOutcome.resp 200 (some rd)) now).2.tokens.refresh_token
      = some (rd.refresh_token.getD oldRt) := by
    simp [refreshTokens, refreshTokensBody, hrt, ha, he, reqField, pyTry, bind, Except.bind,
      saveTokens]
    cases s.config <;> simp
  constructor
  · intro newRt hn
    rw [key, hn]
    rfl
  · intro hn
    rw [key, hn]
    rfl

/-- Witness for C4 at a concrete state: a refresh response omitting
`refresh_token` retains the old one. -/
theorem claim_C4_witness :
    (refreshTokens ⟨some TokenDict.empty, ⟨some ("a0"), some ("r0"), some (some 0), false⟩, []⟩
        (HttpOutcome.resp 200 (some ⟨some ("a1"), none, some 3600⟩)) 50).2.tokens.refresh_token
      = some ("r0") :=
  (claim_C4_refresh_rotation _ _ ("r0") ("a1") 3600 50 rfl rfl rfl).2 rfl

/-- Claim C7: `refresh_tokens` invoked with no in-memory refresh token fails
immediately with the state unchanged, and the result does not depend on the
token endpoint's behaviour `env` at all — no HTTP call is made and no load
from persistence is attempted. -/
theorem claim_C7_fail_fast (s : ManagerState) (env : HttpOutcome) (now : Int)
    (h : s.tokens.refresh_token = none) :
    refreshTokens s env now = (false, s) := by
  simp [refreshTokens, refreshTokensBody, h, pyTry]

/-- Witness for C7 at a concrete state, with an endpoint that would raise. -/
theorem claim_C7_witness :
    refreshTokens ⟨none, TokenDict.empty, []⟩ HttpOutcome.exn 0
      = (false, ⟨none, TokenDict.empty, []⟩) :=
  claim_C7_fail_fast _ HttpOutcome.exn 0 rfl

/-- Claim C5: when the token endpoint answers a refresh attempt with a
non-200 status, `get_valid_token` (entered with a non-empty, invalid
in-memory set, so that the refresh path is the one taken) returns the absent
token and the whole manager state — in particular the in-memory set — is
exactly what it was before the attempt. -/
theorem claim_C5_refresh_http_error (s : ManagerState) (code : Nat) (body : Option RespData)
    (now : Int)
    (hne : s.tokens.isEmpty = false)
    (hval : validateTokens s.tokens now = false)
    (hcode : code ≠ 200) :
    getValidToken s (HttpOutcome.resp code body) now = (none, s) := by
  have hrf : refreshTokens s (HttpOutcome.resp code body) now = (false, s) := by
    cases hr : s.tokens.refresh_token with
    | none => simp [refreshTokens, refreshTokensBody, hr, pyTry]
    | some rt => simp [refreshTokens, refreshTokensBody, hr, hcode, pyTry]
  simp [getValidToken, hne, hval, hrf]

/-- Witness for C5: an expired set in memory, the endpoint answering 400. -/
theorem claim_C5_witness :
    getValidToken
        ⟨some TokenDict.empty, ⟨some ("a"), some ("r"), some (some 100), false⟩, []⟩
        (HttpOutcome.resp 400 (some ⟨some ("x"), some ("y"), some 3600⟩)) 1000
      = (none, ⟨some TokenDict.empty, ⟨some ("a"), some ("r"), some (some 100), false⟩, []⟩) :=
  claim_C5_refresh_http_error _ 400 _ 1000 (by decide) (by decide) (by decide)

/-- Claim C8: a successful authorization-code exchange and a successful
refresh both stamp `expires_at = now + expires_in` at the moment the token
response is received; no other operation recomputes it — `_validate_tokens`
is read-only by its very type (`TokenDict → Int → Bool`), and `load_tokens`
either leaves the in-memory set untouched or installs the stored record
verbatim. -/
theorem claim_C8_expiry_derivation (s : ManagerState) (now : Int) :
    (∀ c rd newAccess newRt ei, c ≠ "" → rd.access_token = some newAccess →
      rd.refresh_token = some newRt → rd.expires_in = some ei →
      (fetchToken s (some c) (HttpOutcome.resp 200 (some rd)) now).2.tokens.token_expires_at
        = some (some (now + ei))) ∧
    (∀ rd oldRt newAccess ei, s.tokens.refresh_token = some oldRt →
      rd.access_token = some newAccess → rd.expires_in = some ei →
      (refreshTokens s (HttpOutcome.resp 200 (some rd)) now).2.tokens.token_expires_at
        = some (some (now + ei))) ∧
    ((loadTokens s now).2.tokens = s.tokens ∨
      ∃ ct, s.config = some ct ∧ (loadTokens s now).2.tokens = ct) := by
  refine ⟨?_, ?_, ?_⟩
  · intro c rd newAccess newRt ei hc ha hr he
    simp [fetchToken, fetchTokenBody, hc, ha, hr, he, reqField, pyTry, bind, Except.bind,
      saveTokens]
    cases hcfg : s.config <;> simp [hcfg]
  · intro rd oldRt newAccess ei hrt ha he
    simp [refreshTokens, refreshTokensBody, hrt, ha, he, reqField, pyTry, bind, Except.bind,
      saveTokens]
    cases hcfg : s.config <;> simp [hcfg]
  · unfold loadTokens loadTokensBody
    cases hcfg : s.config with
    | none => exact Or.inl rfl
    | some ct =>
      by_cases hemp : ct.isEmpty = true
      · exact Or.inl (by simp [pyTry, hemp])
      · refine Or.inr ⟨ct, rfl, ?_⟩
        by_cases hv : validateTokens ct now = true <;> simp [pyTry, hemp, hv]

/-- Witness for C8: a code exchange at time 500 with `expires_in = 3600`. -/
theorem claim_C8_witness :
    (fetchToken ⟨none, TokenDict.empty, []⟩ (some ("abc"))
        (HttpOutcome.resp 200 (some ⟨some ("na"), some ("nr"), some 3600⟩)) 500).2.tokens.token_expires_at
      = some (some (500 + 3600)) :=
  (claim_C8_expiry_derivation _ 500).1 ("abc") _ ("na") ("nr") 3600 (by decide) rfl rfl rfl

/-- Claim C9: a successful authorization-code exchange while no config entry
is bound reports success, wholesale-replaces the in-memory set with the
freshly minted one, and schedules no persistence write (`scheduledSaves` is
untouched in the resulting state). -/
theorem claim_C9_fetch_without_persistence (s : ManagerState) (c newAccess newRt : String)
    (rd : RespData) (ei now : Int)
    (hcfg : s.config = none) (hc : c ≠ "")
    (ha : rd.access_token = some newAccess)
    (hr : rd.refresh_token = some newRt)
    (he : rd.expires_in = some ei) :
    fetchToken s (some c) (HttpOutcome.resp 200 (some rd)) now
      = (true, { s with tokens := ⟨some newAccess, some newRt, some (some (now + ei)), false⟩ }) := by
  simp [fetchToken, fetchTokenBody, hc, ha, hr, he, hcfg, reqField, pyTry, bind, Except.bind]

/-- Witness for C9 at a concrete pre-setup state. -/
theorem claim_C9_witness :
    fetchToken ⟨none, TokenDict.empty, []⟩ (some ("zz"))
        (HttpOutcome.resp 200 (some ⟨some ("na"), some ("nr"), some 7200⟩)) 10
      = (true, ⟨none, ⟨some ("na"), some ("nr"), some (some (10 + 7200)), false⟩, []⟩) :=
  claim_C9_fetch_without_persistence _ ("zz") ("na") ("nr") _ 7200 10 rfl (by decide) rfl rfl rfl

/-- Claim C10: a refresh while no config entry is bound, answered
successfully by the endpoint, still returns `False` — the save step fails —
even though the in-memory set has already been replaced by the freshly
minted tokens, so a caller seeing `False` cannot conclude the set is
unchanged. -/
theorem claim_C10_refresh_false_but_replaced (s : ManagerState)
    (oldRt newAccess : String) (rd : RespData) (ei now : Int)
    (hcfg : s.config = none)
    (hrt : s.tokens.refresh_token = some oldRt)
    (ha : rd.access_token = some newAccess)
    (he : rd.expires_in = some ei) :
    refreshTokens s (HttpOutcome.resp 200 (some rd)) now
      = (false, { s with
          tokens := ⟨some newAccess, some (rd.refresh_token.getD oldRt),
            some (some (now + ei)), false⟩ }) := by
  simp [refreshTokens, refreshTokensBody, hrt, ha, he, hcfg, reqField, pyTry, bind, Except.bind,
    saveTokens]

/-- Witness for C10 at a concrete pre-setup state. -/
theorem claim_C10_witness :
    refreshTokens ⟨none, ⟨some ("a0"), some ("r0"), some (some 0), false⟩, []⟩
        (HttpOutcome.resp 200 (some ⟨some ("a1"), some ("r1"), some 3600⟩)) 20
      = (false, ⟨none, ⟨some ("a1"), some ("r1"), some (some (20 + 3600)), false⟩, []⟩) :=
  claim_C10_refresh_false_but_replaced _ ("r0") ("a1") _ 3600 20 rfl rfl rfl rfl

/-- Counterexample for C1: memory EMPTY, the config entry holding a complete
but expired set (expiry 100, now 1000), and an endpoint whose refresh would
succeed with fresh tokens.  The claim predicts a refresh within this call
returning the new token; the code instead has `load_tokens` report failure
(after storing the expired set in memory), so `get_valid_token` returns the
absent token and never attempts the refresh. -/
theorem claim_C1_counterexample :
    getValidToken
        ⟨some ⟨some ("oa"), some ("or"), some (some 100), false⟩, TokenDict.empty, []⟩
        (HttpOutcome.resp 200 (some ⟨some ("na"), some ("nr"), some 3600⟩)) 1000
      = (none, ⟨some ⟨some ("oa"), some ("or"), some (some 100), false⟩,
          ⟨some ("oa"), some ("or"), some (some 100), false⟩, []⟩) := by
  decide

/-- Claim C1 as amended: from EMPTY, a load that succeeds but fails
validation leaves the manager in LOADED_EXPIRED (the stored set is now in
memory) but `get_valid_token` returns the absent token for that same call
without attempting a refresh; the refresh exchange happens on the next call,
which returns the new access token when the exchange succeeds. -/
theorem claim_C1_refresh_on_next_call (s : ManagerState) (ct : TokenDict) (rt a : String)
    (rd : RespData) (ei now : Int)
    (h1 : s.tokens = TokenDict.empty) (h2 : s.config = some ct)
    (h3 : ct.isEmpty = false) (h4 : validateTokens ct now = false)
    (h5 : ct.refresh_token = some rt)
    (h6 : rd.access_token = some a) (h7 : rd.expires_in = some ei) :
    getValidToken s (HttpOutcome.resp 200 (some rd)) now = (none, { s with tokens := ct }) ∧
    (getValidToken { s with tokens := ct } (HttpOutcome.resp 200 (some rd)) now).1 = some a := by
  have hempty : TokenDict.isEmpty s.tokens = true := by
    rw [h1]
    rfl
  have hload : loadTokens s now = (false, { s with tokens := ct }) := by
    simp [loadTokens, loadTokensBody, h2, h3, h4, pyTry]
  constructor
  · simp [getValidToken, hempty, hload]
  · simp [getValidToken, h3, h4, refreshTokens, refreshTokensBody, h5, h6, h7, h2, reqField,
      pyTry, bind, Except.bind, saveTokens]

/-- Witness for the amended C1 at the counterexample's concrete input: the
first call yields no token, the second call yields the refreshed one. -/
theorem claim_C1_witness :
    getValidToken
        ⟨some ⟨some ("oa"), some ("or"), some (some 100), false⟩, TokenDict.empty, []⟩
        (HttpOutcome.resp 200 (some ⟨some ("na"), some ("nr"), some 3600⟩)) 1000
      = (none, ⟨some ⟨some ("oa"), some ("or"), some (some 100), false⟩,
          ⟨some ("oa"), some ("or"), some (some 100), false⟩, []⟩) ∧
    (getValidToken
        ⟨some ⟨some ("oa"), some ("or"), some (some 100), false⟩,
          ⟨some ("oa"), some ("or"), some (some 100), false⟩, []⟩
        (HttpOutcome.resp 200 (some ⟨some ("na"), some ("nr"), some 3600⟩)) 1000).1
      = some ("na") :=
  claim_C1_refresh_on_next_call _ _ ("or") ("na") _ 3600 1000 rfl rfl (by decide) (by decide)
    rfl rfl rfl

/-- Counterexample for C6: a valid in-memory set whose access token is the
empty string.  `get_valid_token` returns a present token (`some ""`, not the
absent `none`), yet `get_headers` returns the empty mapping, because the
code's `if not token` treats the empty string like `None` — so "empty
exactly when absent" fails as stated. -/
theorem claim_C6_counterexample :
    (getValidToken ⟨none, ⟨some (""), some ("r"), some (some 1000), false⟩, []⟩
        HttpOutcome.exn 0).1 = some ("") ∧
    (getHeaders ⟨none, ⟨some (""), some ("r"), some (some 1000), false⟩, []⟩
        HttpOutcome.exn 0).1 = [] := by
  constructor <;> decide

/-- Claim C6 as amended: `get_headers` returns the empty mapping exactly when
`get_valid_token` returns an absent or empty token; whenever it returns a
present non-empty token, the headers are precisely the two-entry Bearer
mapping built from that token. -/
theorem claim_C6_headers_iff (s : ManagerState) (env : HttpOutcome) (now : Int) :
    ((getHeaders s env now).1 = [] ↔
      ((getValidToken s env now).1 = none ∨ (getValidToken s env now).1 = some (""))) ∧
    (∀ tok, (getValidToken s env now).1 = some tok → tok ≠ "" →
      (getHeaders s env now).1
        = [("Authorization", "Bearer " ++ tok), ("Content-Type", "application/json")]) := by
  rcases hgv : getValidToken s env now with ⟨t, s2⟩
  rcases t with _ | tok
  · simp [getHeaders, hgv]
  · by_cases htok : tok = ""
    · subst htok
      simp [getHeaders, hgv]
    · simp [getHeaders, hgv, htok]

/-- Witness for the amended C6 at a concrete state with a non-empty token. -/
theorem claim_C6_witness :
    (getHeaders ⟨none, ⟨some ("tk"), some ("r"), some (some 1000), false⟩, []⟩
        HttpOutcome.exn 0).1
      = [("Authorization", "Bearer " ++ ("tk")), ("Content-Type", "application/json")] :=
  (claim_C6_headers_iff _ HttpOutcome.exn 0).2 ("tk") (by decide) (by decide)
